import Mathlib

/-!
Shallow embedding of the Trivia backend handlers
(`backend/flaskr/__init__.py`) and proofs about their behavior.

The database is modelled as an in-memory pair of row lists; the ORM
query/insert/delete calls become list operations.  Each Flask handler
becomes a pure function from the database (and the request data it reads)
to an HTTP outcome.  `abort(code)` raises a `Raised.httpErr code`; any
other Python exception is `Raised.pyExn`; a `try/except` block is an
explicit `match` on the `Except` value of the protected region, exactly
mirroring the source (in particular, `except Exception` catches the
`HTTPException` that `abort` raises, since `HTTPException` subclasses
`Exception`).  An exception that no handler catches surfaces as the
distinguished outcome `HResp.exn`.
-/

/-- A category row: `{id, type}` (spec §3; `models.py` is not in `src/`,
the row shape is taken from the spec's data model). -/
structure Category where
  id : Nat
  type : String
deriving DecidableEq, Repr

/-- A question row: `{id, question, answer, category, difficulty}` (spec §3). -/
structure Question where
  id : Nat
  question : String
  answer : String
  category : Nat
  difficulty : Nat
deriving DecidableEq, Repr

/-- The relational store: the two tables. -/
structure DB where
  categories : List Category
  questions : List Question
deriving DecidableEq, Repr

/-- Modelled from the spec: `models.py` (absent from `src/`) defines
`Question.format`, returning the plain `{field: value}` record of the
question's five fields (spec §3, §4.1); as a record it is the row itself. -/
def Question.format (q : Question) : Question := q

/-- A JSON scalar appearing as a request-body field value. -/
inductive JVal where
  | jstr : String → JVal
  | jnum : Nat → JVal
deriving DecidableEq, Repr

/-- `json_body.get(key, '')`: an absent field defaults to the empty string. -/
def getJ (o : Option JVal) : JVal := o.getD (.jstr "")

/-- String rendering of a scalar (driver-side coercion when stored in a
text column; no claim inspects this value). -/
def JVal.asString : JVal → String
  | .jstr s => s
  | .jnum n => n.repr

/-- Numeric rendering of a scalar (driver-side coercion when stored in an
integer column; no claim inspects this value). -/
def JVal.asNat : JVal → Nat
  | .jstr s => s.toNat?.getD 0
  | .jnum n => n

/-- What a protected region can raise: a werkzeug `HTTPException` carrying
a status code (from `abort(code)`), or any other Python exception. -/
inductive Raised where
  | httpErr (code : Nat)
  | pyExn
deriving DecidableEq, Repr

/-- Outcome of one handler invocation: a JSON success response with a
status code, an error response produced by a registered error handler, or
an exception that escaped the handler uncaught. -/
inductive HResp (β : Type) where
  | ok (status : Nat) (body : β)
  | err (code : Nat)
  | exn
deriving DecidableEq, Repr

/-- `QUESTIONS_PER_PAGE = 10`. -/
def QUESTIONS_PER_PAGE : Nat := 10

/-- `paginate(request, data)`: format every record, then slice
`[(page-1)*10 : page*10]` for the 1-based `page` query parameter. -/
def paginate (page : Nat) (data : List Question) : List Question :=
  let start := (page - 1) * QUESTIONS_PER_PAGE
  ((data.map Question.format).drop start).take QUESTIONS_PER_PAGE

/-- SQLAlchemy `one_or_none()`: `none` on an empty result set, the row on
a singleton, and `MultipleResultsFound` (an exception) otherwise. -/
def oneOrNone {α : Type} : List α → Except Raised (Option α)
  | [] => .ok none
  | [a] => .ok (some a)
  | _ => .error .pyExn

/-- Body of the `GET /categories` success response. -/
structure CategoriesBody where
  categories : List (Nat × String)
deriving DecidableEq, Repr

/-- The region of `get_all_categories` protected by `try`: build the
id→type mapping and `abort(404)` when it is empty. -/
def get_all_categories_try (db : DB) : Except Raised CategoriesBody :=
  let categories_dict := db.categories.map (fun c => (c.id, c.type))
  if categories_dict.length = 0 then .error (.httpErr 404)
  else .ok ⟨categories_dict⟩

/-- `GET /categories`: the `except Exception` clause catches every
exception raised in the `try` region — including the `HTTPException`
from `abort(404)` — and replaces it with `abort(500)`. -/
def get_all_categories (db : DB) : HResp CategoriesBody :=
  match get_all_categories_try db with
  | .ok b => .ok 200 b
  | .error _ => .err 500

/-- Body of the `GET /questions` success response. -/
structure QuestionsBody where
  questions : List Question
  total_questions : Nat
  categories : List (Nat × String)
deriving DecidableEq, Repr

/-- `GET /questions?page=N`: paginate all questions; `abort(404)` when the
requested page is empty (no `try` around it, so 404 reaches the client). -/
def get_questions (db : DB) (page : Nat) : HResp QuestionsBody :=
  let all_questions := db.questions
  let questions_count := all_questions.length
  let current_questions := paginate page all_questions
  let categories_dict := db.categories.map (fun c => (c.id, c.type))
  if current_questions.length = 0 then .err 404
  else .ok 200 ⟨current_questions, questions_count, categories_dict⟩

/-- Body of the `DELETE /questions/{id}` success response. -/
structure DeleteBody where
  deleted : Nat
deriving DecidableEq, Repr

/-- The region of `delete_question` protected by `try`: look the row up
with `one_or_none`, `abort(404)` when absent, otherwise delete it. -/
def delete_question_try (db : DB) (id : Nat) :
    Except Raised (DeleteBody × DB) :=
  match oneOrNone (db.questions.filter (fun q => q.id = id)) with
  | .error e => .error e
  | .ok none => .error (.httpErr 404)
  | .ok (some _question) =>
      .ok (⟨id⟩, { db with questions := db.questions.filter (fun r => ¬ r.id = id) })

/-- `DELETE /questions/{id}`: the bare `except:` clause turns every raise
in the `try` region — the `abort(404)` included — into `abort(422)`. -/
def delete_question (db : DB) (id : Nat) : HResp DeleteBody × DB :=
  match delete_question_try db id with
  | .ok (b, db2) => (.ok 200 b, db2)
  | .error _ => (.err 422, db)

/-- Body of the `POST /questions` success response. -/
structure CreateBody where
  message : String
deriving DecidableEq, Repr

/-- The JSON body of a `POST /questions` request: each field either absent
or a scalar. -/
structure CreateRequest where
  question : Option JVal
  answer : Option JVal
  difficulty : Option JVal
  category : Option JVal
deriving Repr

/-- Modelled from the spec: `models.py` (absent from `src/`) delegates id
assignment for `Question.insert` to storage; ids are storage-assigned and
unique (spec §3), embedded as one more than the largest id present. -/
def freshId (db : DB) : Nat :=
  (db.questions.map (fun q => q.id)).foldr max 0 + 1

/-- `POST /questions`: reject with `abort(422)` when any of the four
fields is the empty string (absence defaults to the empty string);
otherwise insert the row and answer HTTP 201. -/
def add_question (db : DB) (req : CreateRequest) : HResp CreateBody × DB :=
  let question := getJ req.question
  let answer := getJ req.answer
  let difficulty := getJ req.difficulty
  let category := getJ req.category
  if question = .jstr "" ∨ answer = .jstr "" ∨ difficulty = .jstr "" ∨ category = .jstr "" then
    (.err 422, db)
  else
    let q : Question :=
      ⟨freshId db, question.asString, answer.asString, category.asNat, difficulty.asNat⟩
    (.ok 201 ⟨"Question creation successful!"⟩,
     { db with questions := db.questions ++ [q] })

/-- The row `add_question` inserts on the valid path. -/
def newQuestion (db : DB) (req : CreateRequest) : Question :=
  ⟨freshId db, (getJ req.question).asString, (getJ req.answer).asString,
   (getJ req.category).asNat, (getJ req.difficulty).asNat⟩

/-- Character-list prefix test used by the substring search. -/
def matchHere : List Char → List Char → Bool
  | [], _ => true
  | _ :: _, [] => false
  | a :: as, b :: bs => a = b && matchHere as bs

/-- Substring occurrence test on character lists. -/
def occursIn (pat : List Char) : List Char → Bool
  | [] => pat.isEmpty
  | b :: bs => matchHere pat (b :: bs) || occursIn pat bs

/-- `Question.question.ilike('%term%')`: case-insensitive substring match
of the term against the question text. -/
def ilike (s pat : String) : Bool :=
  occursIn (pat.toList.map Char.toLower) (s.toList.map Char.toLower)

/-- Body of the `POST /questions/search` success response. -/
structure SearchBody where
  questions : List Question
  total_questions : Nat
deriving DecidableEq, Repr

/-- The region of `search_questions` protected by `try`: filter with
`ilike`, `abort(404)` on zero matches, else paginate the matches and count
the whole question table. -/
def search_questions_try (db : DB) (page : Nat) (search_term : String) :
    Except Raised SearchBody :=
  let questions := db.questions.filter (fun q => ilike q.question search_term)
  if questions.length = 0 then .error (.httpErr 404)
  else .ok ⟨paginate page questions, db.questions.length⟩

/-- `POST /questions/search`: `abort(422)` on an empty term happens before
the `try`; the `except Exception` clause maps every raise in the region —
the `abort(404)` included — to `abort(404)`. -/
def search_questions (db : DB) (page : Nat) (search_term? : Option String) :
    HResp SearchBody :=
  let search_term := search_term?.getD ""
  if search_term = "" then .err 422
  else match search_questions_try db page search_term with
  | .ok b => .ok 200 b
  | .error _ => .err 404

/-- Body of the `GET /categories/{id}/questions` success response. -/
structure CategoryQuestionsBody where
  questions : List Question
  total_questions : Nat
  current_category : String
deriving DecidableEq, Repr

/-- `GET /categories/{id}/questions`: `abort(422)` when the category is
absent; when it exists, the next statement reads `Question.quert` (sic),
an attribute that neither the model (spec §3) nor the ORM query interface
defines, so an `AttributeError` is raised and — with no `try` in this
handler — escapes uncaught. -/
def get_questions_by_category (db : DB) (id : Nat) : HResp CategoryQuestionsBody :=
  match oneOrNone (db.categories.filter (fun c => c.id = id)) with
  | .error _ => .exn
  | .ok none => .err 422
  | .ok (some _category) => .exn

/-- The `quiz_category` request field: an object read only at key `id`. -/
structure QuizCategory where
  id : Nat
deriving DecidableEq, Repr

/-- Body of the `POST /quizzes` success response. -/
structure QuizBody where
  question : Question
deriving DecidableEq, Repr

/-- The quiz candidate pool: all questions when the category id is 0, else
the questions of that category. -/
def quizPool (db : DB) (cat : QuizCategory) : List Question :=
  if cat.id = 0 then db.questions
  else db.questions.filter (fun q => q.category = cat.id)

/-- Placeholder row backing `List.getD`; never selected when the pool is
non-empty. -/
def defaultQuestion : Question := ⟨0, "", "", 0, 0⟩

/-- `get_random_question()`: `questions[random.randint(0, len(questions)-1)]`,
with the random draw supplied externally as an arbitrary natural reduced
into range.  (The empty-pool `ValueError` is handled at the call site.) -/
def drawQuestion (pool : List Question) (r : Nat) : Question :=
  pool.getD (r % pool.length) defaultQuestion

/-- The rejection-sampling `while` loop: redraw as long as the current
candidate's id is among `previous_questions`.  `stream k` supplies the
`k`-th random draw and `fuel` bounds the number of iterations observed;
`none` means the loop has not terminated within `fuel` iterations. -/
def quizLoop (pool : List Question) (prev : List Nat) (stream : Nat → Nat) :
    Nat → Nat → Question → Option Question
  | 0, _, _ => none
  | fuel + 1, k, q =>
    if q.id ∈ prev then quizLoop pool prev stream fuel (k + 1) (drawQuestion pool (stream k))
    else some q

/-- `POST /quizzes`: `abort(400)` when either field is null; select the
pool; when the pool is empty the first `random.randint(0, -1)` raises
`ValueError` (uncaught); otherwise run the rejection loop on the stream of
draws.  `none` models the loop still running after `fuel` iterations. -/
def play_quiz (db : DB) (prev? : Option (List Nat)) (cat? : Option QuizCategory)
    (stream : Nat → Nat) (fuel : Nat) : Option (HResp QuizBody) :=
  match prev?, cat? with
  | some prev, some cat =>
    let pool := quizPool db cat
    if pool.isEmpty then some .exn
    else
      match quizLoop pool prev stream fuel 1 (drawQuestion pool (stream 0)) with
      | some q => some (.ok 200 ⟨q.format⟩)
      | none => none
  | _, _ => some (.err 400)

/-! ## Concrete fixtures -/

/-- History question with id 5 (spec §8 quiz scenario). -/
def q5 : Question := ⟨5, "Q5", "A5", 4, 1⟩

/-- History question with id 9 (spec §8 quiz scenario). -/
def q9 : Question := ⟨9, "Q9", "A9", 4, 1⟩

/-- History question with id 7 (spec §8 quiz scenario). -/
def q7 : Question := ⟨7, "Q7", "A7", 4, 1⟩

/-- The quiz-scenario store: Category 4 "History" and questions 5, 9, 7. -/
def quizDB : DB := ⟨[⟨4, "History"⟩], [q5, q9, q7]⟩

/-- A question whose text contains "lake" (case-insensitively). -/
def lakeQ : Question := ⟨1, "What is the largest lake in Africa?", "Lake Victoria", 3, 2⟩

/-- A question whose text does not contain "lake". -/
def alphaQ : Question := ⟨2, "Alpha beta", "x", 1, 1⟩

/-- Two-question store for the search claims. -/
def searchDB : DB := ⟨[⟨3, "Geography"⟩], [lakeQ, alphaQ]⟩

/-- Index of the last page that still holds a question when `n` questions
exist: `⌈n/10⌉`. -/
def lastPage (n : Nat) : Nat := (n + 9) / 10

/-! ## Helper lemmas -/

lemma mem_le_foldr_max (l : List Nat) (x : Nat) (hx : x ∈ l) :
    x ≤ l.foldr max 0 := by
  induction l with
  | nil => cases hx
  | cons a t ih =>
    rcases List.mem_cons.mp hx with rfl | hx'
    · exact le_max_left _ _
    · exact le_trans (ih hx') (le_max_right _ _)

lemma freshId_gt (db : DB) (q : Question) (hq : q ∈ db.questions) :
    q.id < freshId db := by
  have : q.id ∈ db.questions.map (fun r => r.id) :=
    List.mem_map.mpr ⟨q, hq, rfl⟩
  have := mem_le_foldr_max _ _ this
  unfold freshId
  omega

lemma drawQuestion_mem (pool : List Question) (hne : pool ≠ []) (r : Nat) :
    drawQuestion pool r ∈ pool := by
  have hlen : 0 < pool.length := List.length_pos.mpr hne
  have hlt : r % pool.length < pool.length := Nat.mod_lt _ hlen
  unfold drawQuestion
  rw [List.getD_eq_getElem _ _ hlt]
  exact List.getElem_mem _

lemma quizLoop_some_id (pool : List Question) (prev : List Nat)
    (stream : Nat → Nat) :
    ∀ (fuel k : Nat) (q0 q : Question),
      quizLoop pool prev stream fuel k q0 = some q → q.id ∉ prev := by
  intro fuel
  induction fuel with
  | zero => intro k q0 q h; simp [quizLoop] at h
  | succ n ih =>
    intro k q0 q h
    by_cases hq : q0.id ∈ prev
    · rw [quizLoop, if_pos hq] at h
      exact ih _ _ _ h
    · rw [quizLoop, if_neg hq] at h
      cases h
      exact hq

lemma quizLoop_some_mem (pool : List Question) (prev : List Nat)
    (stream : Nat → Nat) :
    ∀ (fuel k : Nat) (q0 : Question), q0 ∈ pool →
      ∀ q : Question, quizLoop pool prev stream fuel k q0 = some q → q ∈ pool := by
  intro fuel
  induction fuel with
  | zero => intro k q0 _ q h; simp [quizLoop] at h
  | succ n ih =>
    intro k q0 hq0 q h
    by_cases hq : q0.id ∈ prev
    · rw [quizLoop, if_pos hq] at h
      exact ih _ _ (drawQuestion_mem pool (List.ne_nil_of_mem hq0) _) q h
    · rw [quizLoop, if_neg hq] at h
      cases h
      exact hq0

lemma quizLoop_all_prev (pool : List Question) (prev : List Nat)
    (stream : Nat → Nat) (hall : ∀ q ∈ pool, q.id ∈ prev) :
    ∀ (fuel k : Nat) (q0 : Question), q0 ∈ pool →
      quizLoop pool prev stream fuel k q0 = none := by
  intro fuel
  induction fuel with
  | zero => intro k q0 _; rfl
  | succ n ih =>
    intro k q0 hq0
    rw [quizLoop, if_pos (hall q0 hq0)]
    exact ih _ _ (drawQuestion_mem pool (List.ne_nil_of_mem hq0) _)

lemma play_quiz_ok_inv (db : DB) (prev : List Nat) (cat : QuizCategory)
    (stream : Nat → Nat) (fuel : Nat) (b : QuizBody)
    (h : play_quiz db (some prev) (some cat) stream fuel = some (.ok 200 b)) :
    b.question ∈ quizPool db cat ∧ b.question.id ∉ prev := by
  simp only [play_quiz] at h
  by_cases hp : (quizPool db cat).isEmpty
  · rw [if_pos hp] at h
    simp at h
  · rw [if_neg hp] at h
    have hne : quizPool db cat ≠ [] := by
      intro he
      rw [he] at hp
      exact hp rfl
    cases hq : quizLoop (quizPool db cat) prev stream fuel 1
        (drawQuestion (quizPool db cat) (stream 0)) with
    | none => rw [hq] at h; simp at h
    | some q =>
      rw [hq] at h
      simp only [Question.format, Option.some.injEq, HResp.ok.injEq, true_and] at h
      have hb : b.question = q := by rw [← h]
      rw [hb]
      exact ⟨quizLoop_some_mem _ _ _ _ _ _ (drawQuestion_mem _ hne _) q hq,
             quizLoop_some_id _ _ _ _ _ _ q hq⟩

/-! ## Claim theorems -/

/-- Claim C1: for `GET /categories` on an empty category table, the claim
expects a 404; evaluating the handler shows the `abort(404)` is swallowed
by `except Exception` and the response is the 500 error shape, while the
non-empty success half of the claim behaves as stated. -/
theorem c1_empty_categories_returns_500 :
    get_all_categories ⟨[], []⟩ = HResp.err 500 ∧
    HResp.err (β := CategoriesBody) 500 ≠ HResp.err 404 ∧
    get_all_categories ⟨[⟨1, "Science"⟩], []⟩ = HResp.ok 200 ⟨[(1, "Science")]⟩ := by
  refine ⟨rfl, by decide, rfl⟩

/-- Claim C3: for `GET /categories/{id}/questions` with an existing
category, the handler hits the `Question.quert` attribute error and no
response is produced (the claim expects the success body); the
absent-category half does return 422. -/
theorem c3_category_questions_attribute_error :
    get_questions_by_category ⟨[⟨6, "Sports"⟩], [⟨22, "s", "a", 6, 1⟩]⟩ 6 =
      HResp.exn ∧
    get_questions_by_category ⟨[], []⟩ 6 = HResp.err 422 := ⟨rfl, rfl⟩

/-- Claim C4: a `POST /quizzes` success never carries an id from
`previous_questions` and (for a non-zero category id) never a question
outside that category; in the spec's seeded scenario every success
carries the question with id 7. -/
theorem c4_quiz_excludes_previous :
    (∀ (db : DB) (prev : List Nat) (cat : QuizCategory) (stream : Nat → Nat)
       (fuel : Nat) (b : QuizBody),
       play_quiz db (some prev) (some cat) stream fuel = some (.ok 200 b) →
       b.question.id ∉ prev ∧ (cat.id ≠ 0 → b.question.category = cat.id)) ∧
    (∀ (stream : Nat → Nat) (fuel : Nat) (b : QuizBody),
       play_quiz quizDB (some [5, 9]) (some ⟨4⟩) stream fuel = some (.ok 200 b) →
       b.question.id = 7) := by
  constructor
  · intro db prev cat stream fuel b h
    obtain ⟨hmem, hid⟩ := play_quiz_ok_inv db prev cat stream fuel b h
    refine ⟨hid, fun hcat => ?_⟩
    rw [quizPool, if_neg hcat] at hmem
    have := (List.mem_filter.mp hmem).2
    simpa using this
  · intro stream fuel b h
    obtain ⟨hmem, hid⟩ := play_quiz_ok_inv quizDB [5, 9] ⟨4⟩ stream fuel b h
    have hpool : quizPool quizDB ⟨4⟩ = [q5, q9, q7] := by decide
    rw [hpool] at hmem
    rcases List.mem_cons.mp hmem with h5 | hmem'
    · exact absurd (by rw [h5]; decide) hid
    rcases List.mem_cons.mp hmem' with h9 | hmem''
    · exact absurd (by rw [h9]; decide) hid
    rcases List.mem_cons.mp hmem'' with h7 | habs
    · rw [h7]; rfl
    · cases habs

/-- Claim C4 witness: the seeded scenario succeeds with the draw stream
that selects index 2, and the theorem yields id 7 for it. -/
theorem c4_quiz_excludes_previous_witness :
    play_quiz quizDB (some [5, 9]) (some ⟨4⟩) (fun _ => 2) 1 =
      some (HResp.ok 200 ⟨q7⟩) ∧
    (⟨q7⟩ : QuizBody).question.id = 7 :=
  ⟨by decide, c4_quiz_excludes_previous.2 (fun _ => 2) 1 ⟨q7⟩ (by decide)⟩

/-- Claim C5: when the pool is non-empty and every pool question's id is
in `previous_questions`, the rejection loop runs out of any iteration
bound without producing a response, whatever the draws are. -/
theorem c5_exhausted_pool_never_terminates (db : DB) (prev : List Nat)
    (cat : QuizCategory) (stream : Nat → Nat) (fuel : Nat)
    (hne : quizPool db cat ≠ [])
    (hall : ∀ q ∈ quizPool db cat, q.id ∈ prev) :
    play_quiz db (some prev) (some cat) stream fuel = none := by
  simp only [play_quiz]
  rw [if_neg (by simpa [List.isEmpty_iff] using hne)]
  rw [quizLoop_all_prev _ _ _ hall fuel 1 _ (drawQuestion_mem _ hne _)]

/-- Claim C5 witness: a one-question pool already listed in
`previous_questions` yields no response for the constant draw stream at
fuel 3. -/
theorem c5_exhausted_pool_never_terminates_witness :
    quizPool ⟨[], [q5]⟩ ⟨4⟩ ≠ [] ∧
    (∀ q ∈ quizPool ⟨[], [q5]⟩ ⟨4⟩, q.id ∈ [5]) ∧
    play_quiz ⟨[], [q5]⟩ (some [5]) (some ⟨4⟩) (fun _ => 0) 3 = none :=
  ⟨by decide, by decide,
   c5_exhausted_pool_never_terminates ⟨[], [q5]⟩ [5] ⟨4⟩ (fun _ => 0) 3
     (by decide) (by decide)⟩

/-- Claim C10: a quiz request whose selected pool is empty makes the
random draw raise on the empty range, so the handler produces neither a
success body nor any of the handled error responses. -/
theorem c10_empty_pool_uncaught (db : DB) (prev : List Nat)
    (cat : QuizCategory) (stream : Nat → Nat) (fuel : Nat)
    (h : quizPool db cat = []) :
    play_quiz db (some prev) (some cat) stream fuel = some HResp.exn ∧
    (∀ (s : Nat) (b : QuizBody),
       play_quiz db (some prev) (some cat) stream fuel ≠ some (.ok s b)) ∧
    (∀ c : Nat,
       play_quiz db (some prev) (some cat) stream fuel ≠ some (.err c)) := by
  have hmain : play_quiz db (some prev) (some cat) stream fuel = some HResp.exn := by
    simp only [play_quiz]
    rw [if_pos (by simp [h])]
  refine ⟨hmain, ?_, ?_⟩
  · intro s b hcontra
    rw [hmain] at hcontra
    cases hcontra
  · intro c hcontra
    rw [hmain] at hcontra
    cases hcontra

/-- Claim C10 witness: requesting category 3 against a store whose only
question is in category 2 gives the uncaught-exception outcome. -/
theorem c10_empty_pool_uncaught_witness :
    quizPool ⟨[], [⟨1, "q", "a", 2, 1⟩]⟩ ⟨3⟩ = [] ∧
    play_quiz ⟨[], [⟨1, "q", "a", 2, 1⟩]⟩ (some []) (some ⟨3⟩) (fun _ => 0) 1 =
      some HResp.exn :=
  ⟨by decide,
   (c10_empty_pool_uncaught ⟨[], [⟨1, "q", "a", 2, 1⟩]⟩ [] ⟨3⟩ (fun _ => 0) 1
     (by decide)).1⟩

/-- Claim C6: every `GET /questions` success for a page `N ≥ 1` carries
exactly the slice `[(N-1)*10 : N*10]` (hence at most 10 records), and any
page strictly beyond the last non-empty one answers 404. -/
theorem c6_questions_pagination (db : DB) (page : Nat) (hpage : 1 ≤ page) :
    (∀ b : QuestionsBody, get_questions db page = .ok 200 b →
       b.questions =
         ((db.questions.map Question.format).drop ((page - 1) * 10)).take 10 ∧
       b.questions.length ≤ 10) ∧
    (page > lastPage db.questions.length → get_questions db page = .err 404) := by
  constructor
  · intro b hb
    simp only [get_questions] at hb
    by_cases hc : (paginate page db.questions).length = 0
    · rw [if_pos hc] at hb
      cases hb
    · rw [if_neg hc] at hb
      simp only [HResp.ok.injEq, true_and] at hb
      have hq : b.questions = paginate page db.questions := by rw [← hb]
      constructor
      · rw [hq]
        simp [paginate, QUESTIONS_PER_PAGE]
      · rw [hq]
        simp only [paginate, QUESTIONS_PER_PAGE, List.length_take]
        omega
  · intro hgt
    have hge : db.questions.length ≤ (page - 1) * 10 := by
      unfold lastPage at hgt
      omega
    have hnil : paginate page db.questions = [] := by
      simp only [paginate, QUESTIONS_PER_PAGE]
      rw [List.drop_eq_nil_of_le (by simpa using hge)]
      rfl
    simp only [get_questions]
    rw [if_pos (by rw [hnil]; rfl)]

/-- Claim C6 witness: with one stored question, page 2 is past the last
non-empty page and answers 404. -/
theorem c6_questions_pagination_witness :
    1 ≤ 2 ∧ 2 > lastPage (DB.questions ⟨[⟨1, "Science"⟩], [q5]⟩).length ∧
    get_questions ⟨[⟨1, "Science"⟩], [q5]⟩ 2 = HResp.err 404 :=
  ⟨by decide, by decide,
   (c6_questions_pagination ⟨[⟨1, "Science"⟩], [q5]⟩ 2 (by decide)).2 (by decide)⟩

/-- Claim C7: a `DELETE /questions/{id}` for an absent id answers 422
unchanged; the only outcomes of the handler are the 422 error and the
`{success, deleted}` body (so no failure ever surfaces as 404 or as a
2xx); deleting an existing id answers 200 and removes the row. -/
theorem c7_delete_collapses_to_422 (db : DB) (id : Nat) (q : Question) :
    (db.questions.filter (fun r => r.id = id) = [] →
       delete_question db id = (.err 422, db)) ∧
    ((delete_question db id).1 = .err 422 ∨
       (delete_question db id).1 = .ok 200 ⟨id⟩) ∧
    (db.questions.filter (fun r => r.id = id) = [q] →
       delete_question db id =
         (.ok 200 ⟨id⟩,
          { db with questions := db.questions.filter (fun r => ¬ r.id = id) })) := by
  refine ⟨?_, ?_, ?_⟩
  · intro h0
    simp only [delete_question, delete_question_try, h0, oneOrNone]
  · rcases hf : db.questions.filter (fun r => r.id = id) with _ | ⟨a, _ | ⟨b, t⟩⟩
    · left
      simp only [delete_question, delete_question_try, hf, oneOrNone]
    · right
      simp only [delete_question, delete_question_try, hf, oneOrNone]
    · left
      simp only [delete_question, delete_question_try, hf, oneOrNone]
  · intro h1
    simp only [delete_question, delete_question_try, h1, oneOrNone]

/-- Claim C7 witness: deleting id 123 from a store holding only question
id 5 answers 422 and leaves the store unchanged. -/
theorem c7_delete_collapses_to_422_witness :
    (DB.questions ⟨[], [q5]⟩).filter (fun r => r.id = 123) = [] ∧
    delete_question ⟨[], [q5]⟩ 123 = (HResp.err 422, ⟨[], [q5]⟩) :=
  ⟨by decide, (c7_delete_collapses_to_422 ⟨[], [q5]⟩ 123 q5).1 (by decide)⟩

/-- Claim C8: `POST /questions` answers 422 when any of the four fields is
the empty string (an absent field defaults to exactly that), and answers
201 with the confirmation body when all four are non-empty. -/
theorem c8_create_validation (db : DB) (req : CreateRequest) :
    ((getJ req.question = .jstr "" ∨ getJ req.answer = .jstr "" ∨
        getJ req.difficulty = .jstr "" ∨ getJ req.category = .jstr "") →
       add_question db req = (.err 422, db)) ∧
    (getJ req.question ≠ .jstr "" → getJ req.answer ≠ .jstr "" →
     getJ req.difficulty ≠ .jstr "" → getJ req.category ≠ .jstr "" →
       (add_question db req).1 = .ok 201 ⟨"Question creation successful!"⟩) := by
  constructor
  · intro h
    simp only [add_question]
    rw [if_pos h]
  · intro h1 h2 h3 h4
    simp only [add_question]
    rw [if_neg (by tauto)]

/-- Claim C8 witness: the spec scenario — `difficulty` omitted — answers
422, while a fully populated body answers 201. -/
theorem c8_create_validation_witness :
    getJ (CreateRequest.difficulty ⟨some (.jstr "Q?"), some (.jstr "A"), none, some (.jnum 1)⟩) = .jstr "" ∧
    add_question ⟨[], []⟩ ⟨some (.jstr "Q?"), some (.jstr "A"), none, some (.jnum 1)⟩ =
      (HResp.err 422, ⟨[], []⟩) ∧
    (add_question ⟨[], []⟩ ⟨some (.jstr "Q?"), some (.jstr "A"), some (.jnum 2), some (.jnum 1)⟩).1 =
      HResp.ok 201 ⟨"Question creation successful!"⟩ :=
  ⟨by decide,
   (c8_create_validation ⟨[], []⟩ ⟨some (.jstr "Q?"), some (.jstr "A"), none, some (.jnum 1)⟩).1
     (by decide),
   (c8_create_validation ⟨[], []⟩ ⟨some (.jstr "Q?"), some (.jstr "A"), some (.jnum 2), some (.jnum 1)⟩).2
     (by decide) (by decide) (by decide) (by decide)⟩

/-- Claim C9: a successful create immediately followed by deleting the
created row answers 201 then 200 and restores the question count of the
starting store. -/
theorem c9_create_then_delete (db : DB) (req : CreateRequest)
    (h1 : getJ req.question ≠ .jstr "") (h2 : getJ req.answer ≠ .jstr "")
    (h3 : getJ req.difficulty ≠ .jstr "") (h4 : getJ req.category ≠ .jstr "") :
    (add_question db req).1 = .ok 201 ⟨"Question creation successful!"⟩ ∧
    (delete_question (add_question db req).2 (freshId db)).1 =
      .ok 200 ⟨freshId db⟩ ∧
    ((delete_question (add_question db req).2 (freshId db)).2).questions.length
      = db.questions.length := by
  have hadd : add_question db req =
      (.ok 201 ⟨"Question creation successful!"⟩,
       { db with questions := db.questions ++ [newQuestion db req] }) := by
    simp only [add_question]
    rw [if_neg (by tauto)]
    rfl
  have hfilter1 :
      (db.questions ++ [newQuestion db req]).filter
        (fun q => q.id = freshId db) = [newQuestion db req] := by
    rw [List.filter_append]
    have ha : db.questions.filter (fun q => q.id = freshId db) = [] := by
      rw [List.filter_eq_nil_iff]
      intro q hq
      have := freshId_gt db q hq
      simp only [decide_eq_true_eq]
      omega
    rw [ha]
    simp [newQuestion]
  have hfilter2 :
      (db.questions ++ [newQuestion db req]).filter
        (fun r => ¬ r.id = freshId db) = db.questions := by
    rw [List.filter_append]
    have ha : db.questions.filter (fun r => ¬ r.id = freshId db) = db.questions := by
      rw [List.filter_eq_self]
      intro q hq
      have := freshId_gt db q hq
      simp only [decide_eq_true_eq]
      omega
    rw [ha]
    simp [newQuestion]
  have hdel :
      delete_question { db with questions := db.questions ++ [newQuestion db req] }
        (freshId db) =
      (.ok 200 ⟨freshId db⟩, { db with questions := db.questions }) := by
    simp only [delete_question, delete_question_try, hfilter1, oneOrNone, hfilter2]
  rw [hadd]
  exact ⟨rfl, by rw [hdel], by rw [hdel]⟩

/-- Claim C9 witness: starting from a one-question store, creating a full
question and deleting the created id restores the count 1. -/
theorem c9_create_then_delete_witness :
    getJ (CreateRequest.question ⟨some (.jstr "Q?"), some (.jstr "A"), some (.jnum 2), some (.jnum 1)⟩) ≠ .jstr "" ∧
    ((delete_question
        (add_question ⟨[], [q5]⟩ ⟨some (.jstr "Q?"), some (.jstr "A"), some (.jnum 2), some (.jnum 1)⟩).2
        (freshId ⟨[], [q5]⟩)).2).questions.length =
      (DB.questions ⟨[], [q5]⟩).length :=
  ⟨by decide,
   (c9_create_then_delete ⟨[], [q5]⟩
      ⟨some (.jstr "Q?"), some (.jstr "A"), some (.jnum 2), some (.jnum 1)⟩
      (by decide) (by decide) (by decide) (by decide)).2.2⟩

/-- Claim C2 counterexample: with two stored questions of which exactly
one matches "lake", the search success reports `total_questions = 2`, the
size of the whole table, not the match count 1. -/
theorem c2_search_total_mismatch :
    search_questions searchDB 1 (some "lake") = HResp.ok 200 ⟨[lakeQ], 2⟩ ∧
    (searchDB.questions.filter (fun q => ilike q.question "lake")).length = 1 ∧
    (2 : Nat) ≠ 1 := ⟨by decide, by decide, by decide⟩

/-- Claim C2 as amended: an empty (or absent) term answers 422; a term
matching zero rows answers 404; a term matching at least one row answers
success whose questions are the requested page's slice of the matches
(at most 10) and whose `total_questions` is the whole table's count. -/
theorem c2_search_amended (db : DB) (page : Nat) (term : String) :
    search_questions db page none = .err 422 ∧
    search_questions db page (some "") = .err 422 ∧
    (term ≠ "" → db.questions.filter (fun q => ilike q.question term) = [] →
       search_questions db page (some term) = .err 404) ∧
    (term ≠ "" → db.questions.filter (fun q => ilike q.question term) ≠ [] →
       search_questions db page (some term) =
         .ok 200 ⟨paginate page (db.questions.filter (fun q => ilike q.question term)),
                  db.questions.length⟩) := by
  refine ⟨rfl, rfl, ?_, ?_⟩
  · intro hterm hnil
    simp only [search_questions, Option.getD_some]
    rw [if_neg hterm]
    simp only [search_questions_try, hnil]
    rfl
  · intro hterm hne
    simp only [search_questions, Option.getD_some]
    rw [if_neg hterm]
    simp only [search_questions_try]
    rw [if_neg (by simpa [List.length_eq_zero] using hne)]

/-- Claim C2 witness: the term "lake" is non-empty, matches one stored
row, and the amended success shape holds for it. -/
theorem c2_search_amended_witness :
    ("lake" : String) ≠ "" ∧
    searchDB.questions.filter (fun q => ilike q.question "lake") ≠ [] ∧
    search_questions searchDB 1 (some "lake") =
      HResp.ok 200
        ⟨paginate 1 (searchDB.questions.filter (fun q => ilike q.question "lake")),
         searchDB.questions.length⟩ :=
  ⟨by decide, by decide,
   (c2_search_amended searchDB 1 "lake").2.2.2 (by decide) (by decide)⟩
